import Mathlib

/-
Verification of nazmulkazi/ssl_manager.

Shallow embedding of the two scripts:
  * ssl_downloader.py   — load_config, export_ssl_certificate
  * rds_ssl_manager.py  — clean_store (with its regex searches and strptime)

Machine-level effects (file writes, process exit codes) are made explicit:
the filesystem state relevant to export_ssl_certificate is the metadata
file (MetaDisk) plus per-file write flags (Env), and uncaught Python
exceptions are modelled with Except.
-/

namespace SslManager

/- ===================== ssl_downloader.py ===================== -/

/-- SSL certificate data fetched from the remote server (the `cert` dict of
`export_ssl_certificate`, see the docstring at ssl_downloader.py:144). -/
structure Cert where
  domain : String
  crt : String
  key : String
  cab : String
  valid_from : Int
  valid_to : Int
  fingerprint : String
deriving DecidableEq

/-- A fully-populated metadata record, as written by the exporter
(ssl_downloader.py:202). -/
structure Metadata where
  domain : String
  valid_from : Int
  valid_to : Int
  fingerprint : String
deriving DecidableEq

/-- A JSON object read from the metadata file: each expected key may be
absent.  Accessing an absent key (`metadata['fingerprint']`) raises KeyError
in Python. -/
structure JsonMeta where
  domain : Option String
  valid_from : Option Int
  valid_to : Option Int
  fingerprint : Option String
deriving DecidableEq

/-- State of the metadata file on disk, as observed by the load at
ssl_downloader.py:156-158: missing (FileNotFoundError), unreadable (any
other OSError), not JSON (JSONDecodeError), or parsed JSON. -/
inductive MetaDisk where
  | absent
  | unreadable
  | badJson
  | json (j : JsonMeta)
deriving DecidableEq

/-- Uncaught Python exceptions that the modelled code can raise. -/
inductive PyExc where
  | keyError (field : String)
  | attributeError
  | valueError
deriving DecidableEq

/-- The comparator decision of spec section 4.1, carved out of
export_ssl_certificate (ssl_downloader.py:150-182). -/
inductive Decision where
  | keep
  | rejectNotYetValid
  | rejectRegress
  | replace
deriving DecidableEq

/-- The observable outcome of export_ssl_certificate, tagged by the Python
return value: notYetValid/upToDate/expiryRegress return None,
writeFailed returns False, success returns True (`success b` records
whether the metadata write succeeded; `success false` is the warned,
non-fatal metadata-write failure of ssl_downloader.py:206-207). -/
inductive ExportOutcome where
  | notYetValid
  | upToDate
  | expiryRegress
  | writeFailed
  | success (metaWritten : Bool)
deriving DecidableEq

/-- Which of the three certificate files were written by the export loop
(ssl_downloader.py:189-199). -/
structure FileWrites where
  crt : Bool
  key : Bool
  cab : Bool
deriving DecidableEq

/-- No file writes performed. -/
def noWrites : FileWrites := ⟨false, false, false⟩

/-- Environment of one export run: which of the crt/key/cab paths are
configured (`config.get(name)` truthy, ssl_downloader.py:190) and whether
each individual file write would succeed. -/
structure Env where
  crtConfigured : Bool
  keyConfigured : Bool
  cabConfigured : Bool
  crtWriteOk : Bool
  keyWriteOk : Bool
  cabWriteOk : Bool
  metaWriteOk : Bool
deriving DecidableEq

/-- JSON image of a fully-populated metadata record. -/
def jsonOfMeta (m : Metadata) : JsonMeta :=
  ⟨some m.domain, some m.valid_from, some m.valid_to, some m.fingerprint⟩

/-- The metadata object written at ssl_downloader.py:202:
`{k: cert[k] for k in ['domain', 'valid_from', 'valid_to', 'fingerprint']}`. -/
def jsonOfCert (cert : Cert) : JsonMeta :=
  ⟨some cert.domain, some cert.valid_from, some cert.valid_to, some cert.fingerprint⟩

/-- Decision logic of export_ssl_certificate, ssl_downloader.py:150-182.
Line 151: reject if `cert['valid_from'] > int(datetime.now().timestamp())`.
Lines 156-170: a missing/unreadable/corrupt metadata file falls through to
the export (replace).  Line 174: `metadata['fingerprint']` on parsed JSON —
KeyError if the key is absent; equality means keep (line 175).
Line 178: `cert['valid_to'] <= metadata['valid_to']` — KeyError if absent;
holds means reject (line 182).  Otherwise replace. -/
def comparator (disk : MetaDisk) (cert : Cert) (now : Int) : Except PyExc Decision :=
  if cert.valid_from > now then .ok .rejectNotYetValid
  else
    match disk with
    | .json j =>
      match j.fingerprint with
      | none => .error (.keyError "fingerprint")
      | some fpR =>
        if fpR = cert.fingerprint then .ok .keep
        else
          match j.valid_to with
          | none => .error (.keyError "valid_to")
          | some vtR =>
            if cert.valid_to ≤ vtR then .ok .rejectRegress else .ok .replace
    | _ => .ok .replace

/-- The write loop of ssl_downloader.py:189-199, unrolled over
`['crt', 'key', 'cab']`: each configured path is written in order; the
first failing write aborts the loop (return False), leaving the earlier
writes in place.  Returns (all-succeeded, files written). -/
def exportFiles (env : Env) : Bool × FileWrites :=
  if env.crtConfigured && !env.crtWriteOk then ⟨false, ⟨false, false, false⟩⟩
  else if env.keyConfigured && !env.keyWriteOk then
    ⟨false, ⟨env.crtConfigured && env.crtWriteOk, false, false⟩⟩
  else if env.cabConfigured && !env.cabWriteOk then
    ⟨false, ⟨env.crtConfigured && env.crtWriteOk, env.keyConfigured && env.keyWriteOk, false⟩⟩
  else
    ⟨true, ⟨env.crtConfigured && env.crtWriteOk, env.keyConfigured && env.keyWriteOk,
            env.cabConfigured && env.cabWriteOk⟩⟩

/-- True when some configured certificate/key/CA-bundle write fails. -/
def anyWriteFails (env : Env) : Bool :=
  (env.crtConfigured && !env.crtWriteOk) || (env.keyConfigured && !env.keyWriteOk) ||
    (env.cabConfigured && !env.cabWriteOk)

/-- The export phase, ssl_downloader.py:185-209: write the configured
files; on any failure return False with the metadata file untouched
(line 199); otherwise write the metadata record (lines 202-207) — a failed
metadata write is only warned about and True is returned (line 209). -/
def doExport (env : Env) (disk : MetaDisk) (cert : Cert) :
    ExportOutcome × FileWrites × MetaDisk :=
  match exportFiles env with
  | ⟨false, w⟩ => ⟨.writeFailed, w, disk⟩
  | ⟨true, w⟩ =>
    if env.metaWriteOk then ⟨.success true, w, .json (jsonOfCert cert)⟩
    else ⟨.success false, w, disk⟩

/-- export_ssl_certificate, ssl_downloader.py:138-209.  The early returns
at lines 153, 175 and 182 perform no writes; the replace path runs
`doExport`.  An `Except.error` is an uncaught Python exception. -/
def export_ssl_certificate (env : Env) (disk : MetaDisk) (cert : Cert) (now : Int) :
    Except PyExc (ExportOutcome × FileWrites × MetaDisk) :=
  match comparator disk cert now with
  | .error e => .error e
  | .ok .rejectNotYetValid => .ok ⟨.notYetValid, noWrites, disk⟩
  | .ok .keep => .ok ⟨.upToDate, noWrites, disk⟩
  | .ok .rejectRegress => .ok ⟨.expiryRegress, noWrites, disk⟩
  | .ok .replace => .ok (doExport env disk cert)

/-- Python truthiness of the value returned by export_ssl_certificate:
only True (the success outcomes) is truthy; None and False are falsy. -/
def pyTruthy : ExportOutcome → Bool
  | .success _ => true
  | _ => false

/-- The post-export hook condition of ssl_downloader.py:232:
`if export_ssl_certificate(config, cert) and args.on_export`. -/
def postExportHookRuns (r : Except PyExc (ExportOutcome × FileWrites × MetaDisk))
    (onExportProvided : Bool) : Bool :=
  match r with
  | .ok ⟨o, _, _⟩ => pyTruthy o && onExportProvided
  | .error _ => false

/- ---------- load_config and startup preconditions ---------- -/

/-- State of the configuration file as seen by load_config: missing,
unparsable JSON, or a JSON object with the given set of keys. -/
inductive ConfigFile where
  | absent
  | badJson
  | json (keys : List String)
deriving DecidableEq

/-- How load_config terminates: `exitErr` models `raise SystemExit(msg)`
(process exit status 1), `retNone` models the `return None` of the
JSON-parse-error path (ssl_downloader.py:79-81), `ok` a loaded config. -/
inductive LoadConfigOutcome where
  | exitErr (msg : String)
  | retNone
  | ok (keys : List String)
deriving DecidableEq

/-- Required configuration parameters, ssl_downloader.py:84. -/
def requiredParams : List String :=
  ["remote_url", "token", "domain", "crt", "key", "cab", "metadata"]

/-- load_config, ssl_downloader.py:59-92.  A missing file raises
SystemExit (line 72); a JSON parse error prints a message and returns
None (lines 78-81); missing required fields raise SystemExit naming the
fields (line 89). -/
def load_config : ConfigFile → LoadConfigOutcome
  | .absent => .exitErr "Error: The configuration file does not exist."
  | .badJson => .retNone
  | .json keys =>
    let missing := requiredParams.filter fun p => !(keys.contains p)
    if missing.isEmpty then .ok keys
    else
      .exitErr ("Error: The configuration file is missing the following required fields: "
        ++ String.intercalate ", " missing)

/-- Exit status of the ssl_downloader process when startup fails, before
any pipeline mutation, as a function of the configuration file state.
`raise SystemExit(msg)` with a string message exits with status 1; the
`return None` path makes `if config := load_config(...)` falsy
(ssl_downloader.py:228), so the script falls through and exits 0.
Returns none when startup succeeds and the pipeline proceeds. -/
def sslDownloaderStartupExit (cf : ConfigFile) : Option Nat :=
  match load_config cf with
  | .exitErr _ => some 1
  | .retNone => some 0
  | .ok _ => none

/-- Exit status of the rds_ssl_manager startup checks
(rds_ssl_manager.py:258-265): missing admin privilege or any missing
input file (certificate, key, metadata) raises SystemExit (status 1),
before any mutation.  Returns none when all preconditions hold. -/
def rdsStartupExit (admin crtFileOk keyFileOk metaFileOk : Bool) : Option Nat :=
  if !admin then some 1
  else if !crtFileOk then some 1
  else if !keyFileOk then some 1
  else if !metaFileOk then some 1
  else none

/- ===================== rds_ssl_manager.py ===================== -/

/-- Python `\s` whitespace class (ASCII part), as used by the `re` module
and by whitespace in strptime format strings. -/
def isPySpace (c : Char) : Bool :=
  c == ' ' || c == '\t' || c == '\n' || c == '\r' || c == '\x0b' || c == '\x0c'

/-- Numeric value of a decimal digit character. -/
def charVal (c : Char) : Nat := c.toNat - '0'.toNat

/-- Does `s` start with the literal `lit`? -/
def startsWithL : List Char → List Char → Bool
  | _, [] => true
  | [], _ :: _ => false
  | c :: cs, n :: ns => c == n && startsWithL cs ns

/-- Does `needle` occur as a contiguous substring of the second argument? -/
def containsL (needle : List Char) : List Char → Bool
  | [] => startsWithL [] needle
  | c :: rest => startsWithL (c :: rest) needle || containsL needle rest

/-- Python `needle in hay` on strings: substring containment. -/
def pyIn (needle hay : String) : Bool := containsL needle.toList hay.toList

/-- Strip the literal `lit` from the front of `s`, or fail. -/
def stripLit : List Char → List Char → Option (List Char)
  | [], s => some s
  | _ :: _, [] => none
  | l :: ls, c :: cs => if c == l then stripLit ls cs else none

/-- Run a pattern matcher at every start position, left to right — the
semantics of `re.search` for the patterns used here. -/
def reSearch (f : List Char → Option (List Char)) : List Char → Option (List Char)
  | [] => f []
  | c :: rest =>
    match f (c :: rest) with
    | some r => some r
    | none => reSearch f rest

/-- One anchored attempt of the pattern `NotAfter:\s([^\n]+)`
(rds_ssl_manager.py:229): the literal, one whitespace character, then a
nonempty capture of non-newline characters. -/
def notAfterAt (s : List Char) : Option (List Char) :=
  match stripLit "NotAfter:".toList s with
  | none => none
  | some r =>
    match r with
    | [] => none
    | c :: rest =>
      if isPySpace c then
        match rest.takeWhile (fun x => x != '\n') with
        | [] => none
        | cap => some cap
      else none

/-- One anchored attempt of the pattern `Subject: CN=([^\n]+)`
(rds_ssl_manager.py:235). -/
def cnAt (s : List Char) : Option (List Char) :=
  match stripLit "Subject: CN=".toList s with
  | none => none
  | some r =>
    match r.takeWhile (fun x => x != '\n') with
    | [] => none
    | cap => some cap

/-- One anchored attempt of the pattern `Cert Hash\(sha1\): ([^\s]+)`
(rds_ssl_manager.py:236). -/
def fpAt (s : List Char) : Option (List Char) :=
  match stripLit "Cert Hash(sha1): ".toList s with
  | none => none
  | some r =>
    match r.takeWhile (fun x => !(isPySpace x)) with
    | [] => none
    | cap => some cap

/-- A Python datetime value (no timezone), compared lexicographically on
(year, month, day, hour, minute, second). -/
structure PyDateTime where
  year : Nat
  month : Nat
  day : Nat
  hour : Nat
  minute : Nat
  second : Nat
deriving DecidableEq

/-- Order-preserving encoding of a PyDateTime (components within their
calendar bounds), so that `dtKey a < dtKey b` is `a < b` on datetimes. -/
def dtKey (d : PyDateTime) : Nat :=
  ((((d.year * 13 + d.month) * 32 + d.day) * 25 + d.hour) * 61 + d.minute) * 62 + d.second

/-- The `%m` and `%I` directives of strptime: the CPython regex
`1[0-2]|0[1-9]|[1-9]` (the following literal is never a digit, so ordered
alternation reduces to this greedy form). -/
def parseOneToTwelve : List Char → Option (Nat × List Char)
  | [] => none
  | c :: rest =>
    if c == '1' then
      match rest with
      | c2 :: rest2 =>
        if '0' ≤ c2 ∧ c2 ≤ '2' then some ⟨10 + charVal c2, rest2⟩ else some ⟨1, rest⟩
      | [] => some ⟨1, []⟩
    else if c == '0' then
      match rest with
      | c2 :: rest2 => if '1' ≤ c2 ∧ c2 ≤ '9' then some ⟨charVal c2, rest2⟩ else none
      | [] => none
    else if '2' ≤ c ∧ c ≤ '9' then some ⟨charVal c, rest⟩
    else none

/-- The `%d` directive of strptime: the CPython regex
`3[01]|[12]\d|0[1-9]|[1-9]`. -/
def parseDay : List Char → Option (Nat × List Char)
  | [] => none
  | c :: rest =>
    if c == '3' then
      match rest with
      | c2 :: rest2 =>
        if c2 == '0' || c2 == '1' then some ⟨30 + charVal c2, rest2⟩ else some ⟨3, rest⟩
      | [] => some ⟨3, []⟩
    else if c == '1' || c == '2' then
      match rest with
      | c2 :: rest2 =>
        if c2.isDigit then some ⟨charVal c * 10 + charVal c2, rest2⟩ else some ⟨charVal c, rest⟩
      | [] => some ⟨charVal c, []⟩
    else if c == '0' then
      match rest with
      | c2 :: rest2 => if '1' ≤ c2 ∧ c2 ≤ '9' then some ⟨charVal c2, rest2⟩ else none
      | [] => none
    else if '4' ≤ c ∧ c ≤ '9' then some ⟨charVal c, rest⟩
    else none

/-- The `%Y` directive of strptime: exactly four digits. -/
def parseYear4 : List Char → Option (Nat × List Char)
  | a :: b :: c :: d :: rest =>
    if a.isDigit ∧ b.isDigit ∧ c.isDigit ∧ d.isDigit then
      some ⟨charVal a * 1000 + charVal b * 100 + charVal c * 10 + charVal d, rest⟩
    else none
  | _ => none

/-- The `%M` directive of strptime: the CPython regex `[0-5]\d|\d`. -/
def parseMinute : List Char → Option (Nat × List Char)
  | [] => none
  | c :: rest =>
    if '0' ≤ c ∧ c ≤ '5' then
      match rest with
      | c2 :: rest2 =>
        if c2.isDigit then some ⟨charVal c * 10 + charVal c2, rest2⟩ else some ⟨charVal c, rest⟩
      | [] => some ⟨charVal c, []⟩
    else if c.isDigit then some ⟨charVal c, rest⟩
    else none

/-- The `%p` directive of strptime: AM/PM, case-insensitive; returns true
for PM. -/
def parseAmPm : List Char → Option (Bool × List Char)
  | a :: b :: rest =>
    if (a == 'A' || a == 'a') && (b == 'M' || b == 'm') then some ⟨false, rest⟩
    else if (a == 'P' || a == 'p') && (b == 'M' || b == 'm') then some ⟨true, rest⟩
    else none
  | _ => none

/-- A literal character in a strptime format. -/
def parseLit (c : Char) : List Char → Option (List Char)
  | x :: rest => if x == c then some rest else none
  | [] => none

/-- Whitespace in a strptime format matches one or more whitespace
characters. -/
def parseWs : List Char → Option (List Char)
  | x :: rest => if isPySpace x then some (rest.dropWhile isPySpace) else none
  | [] => none

/-- Gregorian leap year. -/
def isLeap (y : Nat) : Bool := (y % 4 == 0 && y % 100 != 0) || y % 400 == 0

/-- Number of days in a month, used by the datetime constructor to
validate the parsed day. -/
def daysInMonth (y m : Nat) : Nat :=
  if m == 2 then (if isLeap y then 29 else 28)
  else if m == 4 || m == 6 || m == 9 || m == 11 then 30
  else 31

/-- `datetime.strptime(s, '%m/%d/%Y %I:%M %p')` (rds_ssl_manager.py:230):
parse the date, require the whole string consumed ("unconverted data
remains" is a ValueError), validate the day against the calendar, and
convert the 12-hour clock with the AM/PM flag. -/
def strptime_mdY_IMp (s : List Char) : Option PyDateTime :=
  (parseOneToTwelve s).bind fun mo1 =>
  (parseLit '/' mo1.2).bind fun s2 =>
  (parseDay s2).bind fun dy1 =>
  (parseLit '/' dy1.2).bind fun s4 =>
  (parseYear4 s4).bind fun yr1 =>
  (parseWs yr1.2).bind fun s6 =>
  (parseOneToTwelve s6).bind fun hr1 =>
  (parseLit ':' hr1.2).bind fun s8 =>
  (parseMinute s8).bind fun mi1 =>
  (parseWs mi1.2).bind fun s10 =>
  (parseAmPm s10).bind fun pm1 =>
  match pm1.2 with
  | _ :: _ => none
  | [] =>
    if yr1.1 == 0 || dy1.1 > daysInMonth yr1.1 mo1.1 then none
    else
      let hr := if pm1.1 then (if hr1.1 == 12 then 12 else hr1.1 + 12)
                else (if hr1.1 == 12 then 0 else hr1.1)
      some ⟨yr1.1, mo1.1, dy1.1, hr, mi1.1, 0⟩

/-- What happens to one certificate text block in the clean_store loop. -/
inductive CleanStep where
  | skip
  | delete (fp : String)
  | crash (e : PyExc)
deriving DecidableEq

/-- The body of the clean_store loop (rds_ssl_manager.py:224-240) on one
certificate text block.  Line 226: skip when the active fingerprint occurs
anywhere in the block or the block has no `NotAfter:` substring.
Lines 229-230: extract and parse the expiration — a failed regex search is
an uncaught AttributeError (`.groups()` on None), a failed strptime an
uncaught ValueError.  Lines 233-240: when expired, extract common name and
fingerprint (again crashing if absent) and attempt the deletion. -/
def cleanEntry (now : PyDateTime) (fingerprint : String) (cert : String) : CleanStep :=
  if pyIn fingerprint cert || !(pyIn "NotAfter:" cert) then .skip
  else
    match reSearch notAfterAt cert.toList with
    | none => .crash .attributeError
    | some cap =>
      match strptime_mdY_IMp cap with
      | none => .crash .valueError
      | some dt =>
        if dtKey dt < dtKey now then
          match reSearch cnAt cert.toList with
          | none => .crash .attributeError
          | some _ =>
            match reSearch fpAt cert.toList with
            | none => .crash .attributeError
            | some fp => .delete (String.mk fp)
        else .skip

/-- clean_store over the parsed certificate blocks (rds_ssl_manager.py:
224-240): returns the deletions attempted, in order, as (block, extracted
fingerprint) pairs, paired with the uncaught exception that aborted the
loop, if any.  Individual deletion failures are only logged by
delete_certificate and never stop the loop. -/
def clean_store (now : PyDateTime) (fingerprint : String) :
    List String → List (String × String) × Option PyExc
  | [] => ⟨[], none⟩
  | c :: rest =>
    match cleanEntry now fingerprint c with
    | .skip => clean_store now fingerprint rest
    | .delete fp =>
      let r := clean_store now fingerprint rest
      ⟨⟨c, fp⟩ :: r.1, r.2⟩
    | .crash e => ⟨[], some e⟩

/-- The expiration of a block as the loop computes it: the `NotAfter:`
regex search followed by strptime. -/
def parsedNotAfter (cert : String) : Option PyDateTime :=
  (reSearch notAfterAt cert.toList).bind strptime_mdY_IMp

/-- Does the block carry an expiration strictly before `now`? -/
def expiredBefore (now : PyDateTime) (cert : String) : Bool :=
  match parsedNotAfter cert with
  | some dt => decide (dtKey dt < dtKey now)
  | none => false

/- ===================== helper lemmas ===================== -/

/-- The write loop succeeds exactly when no configured write fails. -/
theorem exportFiles_fst (env : Env) : (exportFiles env).1 = !(anyWriteFails env) := by
  obtain ⟨c, k, b, cw, kw, bw, mw⟩ := env
  cases c <;> cases k <;> cases b <;> cases cw <;> cases kw <;> cases bw <;> rfl

/-- A failing configured write makes the export phase return False with
the metadata file untouched. -/
theorem doExport_of_fail (env : Env) (disk : MetaDisk) (cert : Cert)
    (h : anyWriteFails env = true) :
    doExport env disk cert = ⟨.writeFailed, (exportFiles env).2, disk⟩ := by
  have hf : (exportFiles env).1 = false := by rw [exportFiles_fst, h]; rfl
  rcases hef : exportFiles env with ⟨ok, w⟩
  rw [hef] at hf
  simp only at hf
  subst hf
  simp [doExport, hef]

/-- With all file writes succeeding and the metadata write succeeding, the
export phase returns True and rewrites the metadata record from the
fetched certificate. -/
theorem doExport_of_ok (env : Env) (disk : MetaDisk) (cert : Cert)
    (h : anyWriteFails env = false) (hm : env.metaWriteOk = true) :
    doExport env disk cert = ⟨.success true, (exportFiles env).2, .json (jsonOfCert cert)⟩ := by
  have hf : (exportFiles env).1 = true := by rw [exportFiles_fst, h]; rfl
  rcases hef : exportFiles env with ⟨ok, w⟩
  rw [hef] at hf
  simp only at hf
  subst hf
  simp [doExport, hef, hm]

/-- With all file writes succeeding but the metadata write failing, the
export phase still returns True and leaves the metadata file unchanged. -/
theorem doExport_of_warn (env : Env) (disk : MetaDisk) (cert : Cert)
    (h : anyWriteFails env = false) (hm : env.metaWriteOk = false) :
    doExport env disk cert = ⟨.success false, (exportFiles env).2, disk⟩ := by
  have hf : (exportFiles env).1 = true := by rw [exportFiles_fst, h]; rfl
  rcases hef : exportFiles env with ⟨ok, w⟩
  rw [hef] at hf
  simp only at hf
  subst hf
  simp [doExport, hef, hm]

/-- Any comparator decision other than the not-yet-valid rejection implies
the validity window has begun. -/
theorem comparator_not_future {disk : MetaDisk} {cert : Cert} {now : Int} {d : Decision}
    (h : comparator disk cert now = .ok d) (hd : d ≠ .rejectNotYetValid) :
    ¬ (cert.valid_from > now) := by
  intro hlt
  unfold comparator at h
  rw [if_pos hlt] at h
  injection h with h2
  exact hd h2.symm

/- ===================== claims ===================== -/

/-- C1: whenever the fetched certificate's validity has begun and the
loaded metadata record has the same fingerprint, export_ssl_certificate
returns the keep no-op: no certificate, key, CA-bundle or metadata write,
regardless of every other field of the record. -/
theorem export_keep_on_equal_fingerprint
    (env : Env) (R : Metadata) (cert : Cert) (now : Int)
    (hnow : cert.valid_from ≤ now) (hfp : R.fingerprint = cert.fingerprint) :
    export_ssl_certificate env (.json (jsonOfMeta R)) cert now =
      .ok ⟨.upToDate, noWrites, .json (jsonOfMeta R)⟩ := by
  have h1 : ¬ (cert.valid_from > now) := not_lt.mpr hnow
  have hc : comparator (.json (jsonOfMeta R)) cert now = .ok .keep := by
    unfold comparator
    rw [if_neg h1]
    simp [jsonOfMeta, hfp]
  simp [export_ssl_certificate, hc]

/-- C1 witness: a record differing in every other field (later expiry,
other validity start) still yields keep. -/
theorem export_keep_on_equal_fingerprint_witness :
    (((⟨"example.com", "C", "K", "B", 100, 2000, "BB"⟩ : Cert).valid_from ≤ (150 : Int)) ∧
      (⟨"example.com", 7, 99999, "BB"⟩ : Metadata).fingerprint =
        (⟨"example.com", "C", "K", "B", 100, 2000, "BB"⟩ : Cert).fingerprint) ∧
    export_ssl_certificate ⟨true, true, true, true, true, true, true⟩
        (.json (jsonOfMeta ⟨"example.com", 7, 99999, "BB"⟩))
        ⟨"example.com", "C", "K", "B", 100, 2000, "BB"⟩ 150 =
      .ok ⟨.upToDate, noWrites, .json (jsonOfMeta ⟨"example.com", 7, 99999, "BB"⟩)⟩ :=
  ⟨⟨by decide, rfl⟩,
    export_keep_on_equal_fingerprint ⟨true, true, true, true, true, true, true⟩
      ⟨"example.com", 7, 99999, "BB"⟩ ⟨"example.com", "C", "K", "B", 100, 2000, "BB"⟩ 150
      (by decide) rfl⟩

/-- C2: a certificate whose validity starts in the future is rejected with
the not-yet-valid error and nothing is written, for every state of the
metadata file (absent, unreadable, corrupt, or any parsed record): the
wall-clock check precedes the metadata read. -/
theorem export_reject_not_yet_valid
    (env : Env) (disk : MetaDisk) (cert : Cert) (now : Int)
    (h : cert.valid_from > now) :
    export_ssl_certificate env disk cert now = .ok ⟨.notYetValid, noWrites, disk⟩ := by
  have hc : comparator disk cert now = .ok .rejectNotYetValid := by
    unfold comparator
    rw [if_pos h]
  simp [export_ssl_certificate, hc]

/-- C2 witness: rejected even on a corrupt parsed record that would raise
KeyError if the comparison were reached. -/
theorem export_reject_not_yet_valid_witness :
    ((⟨"example.com", "C", "K", "B", 500, 2000, "BB"⟩ : Cert).valid_from > (100 : Int)) ∧
    export_ssl_certificate ⟨true, true, true, true, true, true, true⟩
        (.json ⟨none, none, none, none⟩)
        ⟨"example.com", "C", "K", "B", 500, 2000, "BB"⟩ 100 =
      .ok ⟨.notYetValid, noWrites, .json ⟨none, none, none, none⟩⟩ :=
  ⟨by decide,
    export_reject_not_yet_valid ⟨true, true, true, true, true, true, true⟩
      (.json ⟨none, none, none, none⟩) ⟨"example.com", "C", "K", "B", 500, 2000, "BB"⟩ 100
      (by decide)⟩

/-- C3: with validity begun, a different fingerprint and an expiry not
strictly later than the recorded one, export_ssl_certificate rejects with
the expiry-regression error and writes nothing. -/
theorem export_reject_expiry_regression
    (env : Env) (R : Metadata) (cert : Cert) (now : Int)
    (hnow : cert.valid_from ≤ now) (hfp : R.fingerprint ≠ cert.fingerprint)
    (hvt : cert.valid_to ≤ R.valid_to) :
    export_ssl_certificate env (.json (jsonOfMeta R)) cert now =
      .ok ⟨.expiryRegress, noWrites, .json (jsonOfMeta R)⟩ := by
  have h1 : ¬ (cert.valid_from > now) := not_lt.mpr hnow
  have hc : comparator (.json (jsonOfMeta R)) cert now = .ok .rejectRegress := by
    unfold comparator
    rw [if_neg h1]
    simp [jsonOfMeta, hfp, hvt]
  simp [export_ssl_certificate, hc]

/-- C3 witness: scenario B of the spec (record expires at 2000, fetched
certificate at 1500). -/
theorem export_reject_expiry_regression_witness :
    (((⟨"example.com", "C", "K", "B", 0, 1500, "BB"⟩ : Cert).valid_from ≤ (50 : Int)) ∧
      (⟨"example.com", 0, 2000, "AA"⟩ : Metadata).fingerprint ≠
        (⟨"example.com", "C", "K", "B", 0, 1500, "BB"⟩ : Cert).fingerprint ∧
      (⟨"example.com", "C", "K", "B", 0, 1500, "BB"⟩ : Cert).valid_to ≤
        (⟨"example.com", 0, 2000, "AA"⟩ : Metadata).valid_to) ∧
    export_ssl_certificate ⟨true, true, true, true, true, true, true⟩
        (.json (jsonOfMeta ⟨"example.com", 0, 2000, "AA"⟩))
        ⟨"example.com", "C", "K", "B", 0, 1500, "BB"⟩ 50 =
      .ok ⟨.expiryRegress, noWrites, .json (jsonOfMeta ⟨"example.com", 0, 2000, "AA"⟩)⟩ :=
  ⟨⟨by decide, by decide, by decide⟩,
    export_reject_expiry_regression ⟨true, true, true, true, true, true, true⟩
      ⟨"example.com", 0, 2000, "AA"⟩ ⟨"example.com", "C", "K", "B", 0, 1500, "BB"⟩ 50
      (by decide) (by decide) (by decide)⟩

/-- C4 counterexample: a metadata file holding well-formed JSON that lacks
the expected fields does not produce a replace decision — the access
`metadata['fingerprint']` at ssl_downloader.py:174 sits outside the
try/except of lines 156-170, so it raises an uncaught KeyError and the
run aborts, although the certificate's validity has begun. -/
theorem comparator_keyerror_on_json_without_fields :
    comparator (.json ⟨none, none, none, none⟩)
        ⟨"example.com", "C", "K", "B", 0, 100, "AA"⟩ 50 =
      .error (.keyError "fingerprint") ∧
    comparator (.json ⟨none, none, none, none⟩)
        ⟨"example.com", "C", "K", "B", 0, 100, "AA"⟩ 50 ≠
      .ok .replace ∧
    ((⟨"example.com", "C", "K", "B", 0, 100, "AA"⟩ : Cert).valid_from ≤ (50 : Int)) :=
  ⟨rfl, fun h => Except.noConfusion h, by decide⟩

/-- C4 (amended): when the metadata file is missing, unreadable, or fails
to parse as JSON, the comparator decides replace and the operation
proceeds to the export phase without aborting; well-formed JSON lacking
the expected fields instead raises an uncaught KeyError. -/
theorem export_replace_on_missing_or_corrupt_metadata
    (env : Env) (disk : MetaDisk) (cert : Cert) (now : Int)
    (hnow : cert.valid_from ≤ now)
    (hd : disk = .absent ∨ disk = .unreadable ∨ disk = .badJson) :
    comparator disk cert now = .ok .replace ∧
    export_ssl_certificate env disk cert now = .ok (doExport env disk cert) := by
  have h1 : ¬ (cert.valid_from > now) := not_lt.mpr hnow
  have hc : comparator disk cert now = .ok .replace := by
    rcases hd with h | h | h <;> subst h <;> (unfold comparator; rw [if_neg h1])
  exact ⟨hc, by simp [export_ssl_certificate, hc]⟩

/-- C4 witness: metadata file absent (scenario C of the spec). -/
theorem export_replace_on_missing_or_corrupt_metadata_witness :
    (((⟨"example.com", "C", "K", "B", 0, 9999, "CC"⟩ : Cert).valid_from ≤ (50 : Int)) ∧
      (MetaDisk.absent = MetaDisk.absent ∨ MetaDisk.absent = MetaDisk.unreadable ∨
        MetaDisk.absent = MetaDisk.badJson)) ∧
    comparator .absent ⟨"example.com", "C", "K", "B", 0, 9999, "CC"⟩ 50 = .ok .replace ∧
    export_ssl_certificate ⟨true, true, true, true, true, true, true⟩ .absent
        ⟨"example.com", "C", "K", "B", 0, 9999, "CC"⟩ 50 =
      .ok (doExport ⟨true, true, true, true, true, true, true⟩ .absent
        ⟨"example.com", "C", "K", "B", 0, 9999, "CC"⟩) :=
  ⟨⟨by decide, Or.inl rfl⟩,
    (export_replace_on_missing_or_corrupt_metadata ⟨true, true, true, true, true, true, true⟩
      .absent ⟨"example.com", "C", "K", "B", 0, 9999, "CC"⟩ 50 (by decide) (Or.inl rfl)).1,
    (export_replace_on_missing_or_corrupt_metadata ⟨true, true, true, true, true, true, true⟩
      .absent ⟨"example.com", "C", "K", "B", 0, 9999, "CC"⟩ 50 (by decide) (Or.inl rfl)).2⟩

/-- C5: on a replace decision, a failing configured file write makes
export_ssl_certificate return False (falsy) with the on-disk metadata
record unchanged. -/
theorem export_write_failure_leaves_metadata
    (env : Env) (disk : MetaDisk) (cert : Cert) (now : Int)
    (hrep : comparator disk cert now = .ok .replace)
    (hfail : anyWriteFails env = true) :
    export_ssl_certificate env disk cert now =
      .ok ⟨.writeFailed, (exportFiles env).2, disk⟩ ∧
    pyTruthy .writeFailed = false := by
  refine ⟨?_, rfl⟩
  simp [export_ssl_certificate, hrep, doExport_of_fail env disk cert hfail]

/-- C5 witness: the key write fails; the previously persisted record
survives. -/
theorem export_write_failure_leaves_metadata_witness :
    (comparator (.json (jsonOfMeta ⟨"example.com", 0, 1000, "AA"⟩))
        ⟨"example.com", "C", "K", "B", 0, 2000, "BB"⟩ 50 = .ok .replace ∧
      anyWriteFails ⟨true, true, true, true, false, true, true⟩ = true) ∧
    export_ssl_certificate ⟨true, true, true, true, false, true, true⟩
        (.json (jsonOfMeta ⟨"example.com", 0, 1000, "AA"⟩))
        ⟨"example.com", "C", "K", "B", 0, 2000, "BB"⟩ 50 =
      .ok ⟨.writeFailed, (exportFiles ⟨true, true, true, true, false, true, true⟩).2,
        .json (jsonOfMeta ⟨"example.com", 0, 1000, "AA"⟩)⟩ :=
  ⟨⟨rfl, rfl⟩,
    (export_write_failure_leaves_metadata ⟨true, true, true, true, false, true, true⟩
      (.json (jsonOfMeta ⟨"example.com", 0, 1000, "AA"⟩))
      ⟨"example.com", "C", "K", "B", 0, 2000, "BB"⟩ 50 rfl rfl).1⟩

/-- C6: on a replace decision where every configured file write succeeds
but the metadata write fails, export_ssl_certificate still returns True
(the failure is only a warning), so the post-export hook is triggered. -/
theorem export_metadata_write_failure_nonfatal
    (env : Env) (disk : MetaDisk) (cert : Cert) (now : Int)
    (hrep : comparator disk cert now = .ok .replace)
    (hok : anyWriteFails env = false) (hm : env.metaWriteOk = false) :
    export_ssl_certificate env disk cert now =
      .ok ⟨.success false, (exportFiles env).2, disk⟩ ∧
    postExportHookRuns (export_ssl_certificate env disk cert now) true = true := by
  have he : export_ssl_certificate env disk cert now =
      .ok ⟨.success false, (exportFiles env).2, disk⟩ := by
    simp [export_ssl_certificate, hrep, doExport_of_warn env disk cert hok hm]
  exact ⟨he, by rw [he]; rfl⟩

/-- C6 witness: all three file writes succeed, the metadata write fails,
the run still reports success and fires the hook. -/
theorem export_metadata_write_failure_nonfatal_witness :
    (comparator .absent ⟨"example.com", "C", "K", "B", 0, 2000, "BB"⟩ 50 = .ok .replace ∧
      anyWriteFails ⟨true, true, true, true, true, true, false⟩ = false ∧
      (⟨true, true, true, true, true, true, false⟩ : Env).metaWriteOk = false) ∧
    postExportHookRuns (export_ssl_certificate ⟨true, true, true, true, true, true, false⟩
      .absent ⟨"example.com", "C", "K", "B", 0, 2000, "BB"⟩ 50) true = true :=
  ⟨⟨rfl, rfl, rfl⟩,
    (export_metadata_write_failure_nonfatal ⟨true, true, true, true, true, true, false⟩
      .absent ⟨"example.com", "C", "K", "B", 0, 2000, "BB"⟩ 50 rfl rfl rfl).2⟩

/-- C7: exporter idempotence — after a first run that decides replace and
whose writes all succeed, a second run with the same fetched certificate
hits the fingerprint-equality no-op and leaves the on-disk metadata
record exactly as the first run wrote it. -/
theorem export_idempotent
    (env : Env) (disk : MetaDisk) (cert : Cert) (now : Int)
    (hrep : comparator disk cert now = .ok .replace)
    (hok : anyWriteFails env = false) (hm : env.metaWriteOk = true) :
    export_ssl_certificate env disk cert now =
      .ok ⟨.success true, (exportFiles env).2, .json (jsonOfCert cert)⟩ ∧
    export_ssl_certificate env (.json (jsonOfCert cert)) cert now =
      .ok ⟨.upToDate, noWrites, .json (jsonOfCert cert)⟩ := by
  have h1 : ¬ (cert.valid_from > now) := comparator_not_future hrep (by decide)
  constructor
  · simp [export_ssl_certificate, hrep, doExport_of_ok env disk cert hok hm]
  · have hc2 : comparator (.json (jsonOfCert cert)) cert now = .ok .keep := by
      unfold comparator
      rw [if_neg h1]
      simp [jsonOfCert]
    simp [export_ssl_certificate, hc2]

/-- C7 witness: scenario A of the spec run twice. -/
theorem export_idempotent_witness :
    (comparator (.json (jsonOfMeta ⟨"example.com", 0, 1000, "AA"⟩))
        ⟨"example.com", "C", "K", "B", 0, 2000, "BB"⟩ 50 = .ok .replace ∧
      anyWriteFails ⟨true, true, true, true, true, true, true⟩ = false ∧
      (⟨true, true, true, true, true, true, true⟩ : Env).metaWriteOk = true) ∧
    export_ssl_certificate ⟨true, true, true, true, true, true, true⟩
        (.json (jsonOfCert ⟨"example.com", "C", "K", "B", 0, 2000, "BB"⟩))
        ⟨"example.com", "C", "K", "B", 0, 2000, "BB"⟩ 50 =
      .ok ⟨.upToDate, noWrites, .json (jsonOfCert ⟨"example.com", "C", "K", "B", 0, 2000, "BB"⟩)⟩ :=
  ⟨⟨rfl, rfl, rfl⟩,
    (export_idempotent ⟨true, true, true, true, true, true, true⟩
      (.json (jsonOfMeta ⟨"example.com", 0, 1000, "AA"⟩))
      ⟨"example.com", "C", "K", "B", 0, 2000, "BB"⟩ 50 rfl rfl rfl).2⟩

/-- C9 counterexample: a configuration file with malformed JSON does abort
the run before any mutation and prints a parse error, but load_config
returns None instead of raising SystemExit (ssl_downloader.py:78-81), so
the process falls out of the `if config := load_config(...)` guard and
exits with status 0, not non-zero. -/
theorem malformed_config_exits_zero :
    sslDownloaderStartupExit .badJson = some 0 := rfl

/-- C9 (amended): every listed startup precondition failure aborts before
any mutation; a missing configuration file, missing required config
fields, missing input files and a missing admin privilege exit with
status 1, while malformed configuration JSON aborts with a parse message
but exit status 0. -/
theorem startup_failures_abort :
    sslDownloaderStartupExit .absent = some 1 ∧
    (∀ keys : List String,
      (requiredParams.filter fun p => !(keys.contains p)).isEmpty = false →
      sslDownloaderStartupExit (.json keys) = some 1) ∧
    sslDownloaderStartupExit .badJson = some 0 ∧
    (∀ admin c k m : Bool, (admin && c && k && m) = false →
      rdsStartupExit admin c k m = some 1) := by
  refine ⟨rfl, ?_, rfl, ?_⟩
  · intro keys h
    simp only [sslDownloaderStartupExit, load_config]
    rw [h]
    simp
  · decide

/-- C9 witness: an empty config object misses every required field and
exits 1; a run without admin privilege exits 1. -/
theorem startup_failures_abort_witness :
    ((requiredParams.filter fun p => !(([] : List String).contains p)).isEmpty = false ∧
      ((false && true && true && true) = false)) ∧
    sslDownloaderStartupExit (.json []) = some 1 ∧
    rdsStartupExit false true true true = some 1 :=
  ⟨⟨by decide, by decide⟩,
    startup_failures_abort.2.1 [] (by decide),
    startup_failures_abort.2.2.2 false true true true (by decide)⟩

/-- A block on which the loop body attempts a deletion has a `NotAfter:`
substring, does not contain the active fingerprint, and carries an
expiration parsed to strictly before now. -/
theorem cleanEntry_delete_props (now : PyDateTime) (a c fp : String)
    (h : cleanEntry now a c = .delete fp) :
    pyIn "NotAfter:" c = true ∧ pyIn a c = false ∧ expiredBefore now c = true := by
  unfold cleanEntry at h
  by_cases h1 : (pyIn a c || !(pyIn "NotAfter:" c)) = true
  · rw [if_pos h1] at h
    exact absurd h (by simp)
  · rw [if_neg h1] at h
    have h1' : pyIn a c = false ∧ pyIn "NotAfter:" c = true := by
      constructor
      · cases hx : pyIn a c
        · rfl
        · exact absurd (by simp [hx]) h1
      · cases hx : pyIn "NotAfter:" c
        · exact absurd (by simp [hx]) h1
        · rfl
    cases hna : reSearch notAfterAt c.toList with
    | none =>
      rw [hna] at h
      exact absurd h (by simp)
    | some cap =>
      rw [hna] at h
      simp only [] at h
      cases hsp : strptime_mdY_IMp cap with
      | none =>
        rw [hsp] at h
        exact absurd h (by simp)
      | some dt =>
        rw [hsp] at h
        simp only [] at h
        by_cases hlt : dtKey dt < dtKey now
        · refine ⟨h1'.2, h1'.1, ?_⟩
          have hpa : parsedNotAfter c = some dt := by
            rw [parsedNotAfter, hna, Option.some_bind, hsp]
          simp only [expiredBefore, hpa]
          exact decide_eq_true hlt
        · rw [if_neg hlt] at h
          exact absurd h (by simp)

/-- C8: over any list of store entry blocks, every deletion the cleaner
attempts is on a block that has an expiration field, does not contain the
active fingerprint, and whose parsed expiration is strictly before the
current wall-clock time — so blocks without `NotAfter:` and blocks
containing the active fingerprint are never deleted. -/
theorem clean_store_deletes_only_expired
    (now : PyDateTime) (a : String) (certs : List String) (e f : String)
    (hmem : (e, f) ∈ (clean_store now a certs).1) :
    pyIn "NotAfter:" e = true ∧ pyIn a e = false ∧ expiredBefore now e = true := by
  induction certs with
  | nil => simp [clean_store] at hmem
  | cons c rest ih =>
    rw [clean_store] at hmem
    cases hce : cleanEntry now a c with
    | skip =>
      rw [hce] at hmem
      exact ih hmem
    | crash ex =>
      rw [hce] at hmem
      simp at hmem
    | delete fp =>
      rw [hce] at hmem
      simp only [List.mem_cons, Prod.mk.injEq] at hmem
      rcases hmem with ⟨he, hf⟩ | hmem
      · subst he
        exact cleanEntry_delete_props now a e fp hce
      · exact ih hmem

/-- C8 witness: a store with one expired inactive entry; its deletion is
attempted and the theorem's three properties hold of it. -/
theorem clean_store_deletes_only_expired_witness :
    ("Subject: CN=old.example.com\nNotAfter: 9/20/2024 5:30 PM\nCert Hash(sha1): aabb01\n",
        "aabb01") ∈
      (clean_store ⟨2025, 1, 1, 0, 0, 0⟩ "cccc02"
        ["Subject: CN=keep.example.com\nCert Hash(sha1): dddd03\n",
          "Subject: CN=old.example.com\nNotAfter: 9/20/2024 5:30 PM\nCert Hash(sha1): aabb01\n",
          "Subject: CN=live.example.com\nNotAfter: 9/20/2024 5:30 PM\nCert Hash(sha1): cccc02\n"]).1 ∧
    (pyIn "NotAfter:"
        "Subject: CN=old.example.com\nNotAfter: 9/20/2024 5:30 PM\nCert Hash(sha1): aabb01\n" = true ∧
      pyIn "cccc02"
        "Subject: CN=old.example.com\nNotAfter: 9/20/2024 5:30 PM\nCert Hash(sha1): aabb01\n" = false ∧
      expiredBefore ⟨2025, 1, 1, 0, 0, 0⟩
        "Subject: CN=old.example.com\nNotAfter: 9/20/2024 5:30 PM\nCert Hash(sha1): aabb01\n" = true) :=
  have hmem :
      ("Subject: CN=old.example.com\nNotAfter: 9/20/2024 5:30 PM\nCert Hash(sha1): aabb01\n",
          "aabb01") ∈
        (clean_store ⟨2025, 1, 1, 0, 0, 0⟩ "cccc02"
          ["Subject: CN=keep.example.com\nCert Hash(sha1): dddd03\n",
            "Subject: CN=old.example.com\nNotAfter: 9/20/2024 5:30 PM\nCert Hash(sha1): aabb01\n",
            "Subject: CN=live.example.com\nNotAfter: 9/20/2024 5:30 PM\nCert Hash(sha1): cccc02\n"]).1 :=
    by decide
  ⟨hmem,
    clean_store_deletes_only_expired ⟨2025, 1, 1, 0, 0, 0⟩ "cccc02"
      ["Subject: CN=keep.example.com\nCert Hash(sha1): dddd03\n",
        "Subject: CN=old.example.com\nNotAfter: 9/20/2024 5:30 PM\nCert Hash(sha1): aabb01\n",
        "Subject: CN=live.example.com\nNotAfter: 9/20/2024 5:30 PM\nCert Hash(sha1): cccc02\n"]
      "Subject: CN=old.example.com\nNotAfter: 9/20/2024 5:30 PM\nCert Hash(sha1): aabb01\n"
      "aabb01" hmem⟩

/-- C10: the active-certificate test of the cleaner is substring
containment of the active fingerprint in the entire raw text block
(rds_ssl_manager.py:226, `fingerprint in cert`): any block containing the
active fingerprint anywhere is skipped, exempt from expiry deletion,
whatever its parsed fingerprint field holds. -/
theorem cleanEntry_skip_on_substring_match
    (now : PyDateTime) (a cert : String) (h : pyIn a cert = true) :
    cleanEntry now a cert = .skip := by
  simp [cleanEntry, h]

/-- C10 witness: the active fingerprint occurs only inside the common-name
field; the block's own hash field differs, and it is expired — yet it is
skipped. -/
theorem cleanEntry_skip_on_substring_match_witness :
    pyIn "aabb01"
        "Subject: CN=aabb01.example.com\nNotAfter: 9/20/2024 5:30 PM\nCert Hash(sha1): ffff99\n" =
      true ∧
    cleanEntry ⟨2025, 1, 1, 0, 0, 0⟩ "aabb01"
        "Subject: CN=aabb01.example.com\nNotAfter: 9/20/2024 5:30 PM\nCert Hash(sha1): ffff99\n" =
      .skip :=
  ⟨by decide,
    cleanEntry_skip_on_substring_match ⟨2025, 1, 1, 0, 0, 0⟩ "aabb01"
      "Subject: CN=aabb01.example.com\nNotAfter: 9/20/2024 5:30 PM\nCert Hash(sha1): ffff99\n"
      (by decide)⟩

end SslManager
